import Mathlib

/-!
Verification of the conductor bridge (multi-profile Telegram/Slack bridge for
agent-deck conductor sessions).

The Python source is shallowly embedded:
  * Python strings are `String` or `List Char` (for the character-level
    splitting/stripping functions);
  * each external CLI invocation (`run_cli`) is answered by an oracle
    `env : Nat → CompletedProcess` indexed by the invocation counter, and the
    embedded functions additionally return the ordered list of `CliCall`s they
    issued, so frame properties ("no mutating call") are statements about that
    trace;
  * `json.loads result.stdout` is modelled by the oracle field
    `stdoutJson : Option Json` (`none` = the string is not valid JSON, i.e.
    `json.JSONDecodeError` is raised);
  * a Python exception that the function under scrutiny does not catch is
    modelled with `Option`/early-exit values.
-/

/-- JSON values, as returned by `json.loads`.  Numbers are modelled as `Int`
(the counters the bridge manipulates are integers). -/
inductive Json where
  | null : Json
  | bool : Bool → Json
  | num : Int → Json
  | str : String → Json
  | arr : List Json → Json
  | obj : List (String × Json) → Json

/-- Result of one `subprocess.run` of the agent-deck CLI (`run_cli`).  The
`timeout`/`FileNotFoundError` branches of `run_cli` surface as
`returncode = 1` with empty stdout, exactly like any other failing exit.
`stdoutJson` is the oracle's answer for `json.loads stdout`. -/
structure CompletedProcess where
  returncode : Int
  stdout : String
  stderr : String
  stdoutJson : Option Json

/-- One CLI invocation as issued by `run_cli`: positional arguments (after the
`agent-deck [-p profile]` prelude), the optional profile, and the timeout. -/
structure CliCall where
  args : List String
  profile : Option String
  timeout : Nat

/- ------------------------------------------------------------------ -/
/- Authorization (test_slack_authorization.py, `is_slack_authorized`)  -/
/- ------------------------------------------------------------------ -/

/-- Embeds `is_slack_authorized` from the embedded test suite:
empty allow-list authorizes everyone, otherwise membership is required. -/
def is_slack_authorized (allowed_users : List String) (user_id : String) : Bool :=
  if allowed_users.isEmpty then true
  else if !(allowed_users.contains user_id) then false
  else true

/- ------------------------------------------------------------------ -/
/- Telegram message splitting (`split_message`)                        -/
/- ------------------------------------------------------------------ -/

/-- Embeds `text.rfind "\n" 0 maxLen`: the largest index `i < maxLen` with
`text[i] = '\n'`, scanning downward; `none` plays the role of `-1`. -/
def rfindNewlineAux (text : List Char) : Nat → Option Nat
  | 0 => none
  | n + 1 => if text.get? n = some '\n' then some n else rfindNewlineAux text n

/-- The split position chosen by one iteration of the `split_message` loop:
the last newline before `maxLen`, else a hard cut at `maxLen`. -/
def splitChunkAt (text : List Char) (maxLen : Nat) : Nat :=
  match rfindNewlineAux text maxLen with
  | some i => i
  | none => maxLen

/-- The `while text:` loop of `split_message`.  The fuel argument only bounds
the iteration count; `split_message` supplies `text.length`, which suffices
whenever `0 < maxLen` (each iteration consumes at least one character). -/
def splitMessageLoop : Nat → Nat → List Char → List (List Char)
  | 0, _, _ => []
  | fuel + 1, maxLen, text =>
    if text = [] then []
    else if text.length ≤ maxLen then [text]
    else
      let sa := splitChunkAt text maxLen
      text.take sa :: splitMessageLoop fuel maxLen ((text.drop sa).dropWhile (· == '\n'))

/-- Embeds `split_message` from bridge.py, on character lists. -/
def split_message (text : List Char) (maxLen : Nat) : List (List Char) :=
  if text.length ≤ maxLen then [text]
  else splitMessageLoop text.length maxLen text

/- ------------------------------------------------------------------ -/
/- Claim theorems (authorization)                                      -/
/- ------------------------------------------------------------------ -/

/-- Claim C1: for a non-empty allow-list, `is_slack_authorized` accepts a
sender iff the identity is an exact (hence case-sensitive, untrimmed) member
of the list; for an empty allow-list every identity is authorized, the empty
string included. -/
theorem is_slack_authorized_exact_membership :
    (∀ (allowed : List String) (uid : String), allowed ≠ [] →
      (is_slack_authorized allowed uid = true ↔ uid ∈ allowed)) ∧
    (∀ uid : String, is_slack_authorized [] uid = true) := by
  constructor
  · intro allowed uid h
    simp [is_slack_authorized, List.isEmpty_iff, h, List.contains, List.elem_iff]
  · intro uid
    simp [is_slack_authorized]

/-- Claim C1 witness: the theorem applied at the concrete allow-list
`["U12345"]`, showing exact membership decides authorization there. -/
theorem is_slack_authorized_exact_membership_witness :
    (is_slack_authorized ["U12345"] "U12345" = true ↔ "U12345" ∈ ["U12345"]) ∧
    (is_slack_authorized ["U12345"] "u12345" = true ↔ "u12345" ∈ ["U12345"]) ∧
    is_slack_authorized [] "" = true :=
  ⟨is_slack_authorized_exact_membership.1 ["U12345"] "U12345" (by decide),
   is_slack_authorized_exact_membership.1 ["U12345"] "u12345" (by decide),
   is_slack_authorized_exact_membership.2 ""⟩

/- ------------------------------------------------------------------ -/
/- split_message lemmas                                                -/
/- ------------------------------------------------------------------ -/

theorem rfindNewlineAux_some {text : List Char} :
    ∀ {n i : Nat}, rfindNewlineAux text n = some i → i < n ∧ text.get? i = some '\n'
  | 0, _, h => by simp [rfindNewlineAux] at h
  | n + 1, i, h => by
    rw [rfindNewlineAux] at h
    by_cases hc : text.get? n = some '\n'
    · rw [if_pos hc] at h
      injection h with h'
      subst h'
      exact ⟨Nat.lt_succ_self _, hc⟩
    · rw [if_neg hc] at h
      have hrec := rfindNewlineAux_some h
      exact ⟨Nat.lt_succ_of_lt hrec.1, hrec.2⟩

theorem splitChunkAt_le (text : List Char) (maxLen : Nat) :
    splitChunkAt text maxLen ≤ maxLen := by
  unfold splitChunkAt
  split
  · rename_i i h
    exact Nat.le_of_lt (rfindNewlineAux_some h).1
  · exact Nat.le_refl _

theorem dropDropWhile_length_lt {text : List Char} {k : Nat}
    (hk : 0 < k) (hlt : k < text.length) :
    ((text.drop k).dropWhile (· == '\n')).length < text.length :=
  calc ((text.drop k).dropWhile (· == '\n')).length
      ≤ (text.drop k).length := (List.dropWhile_sublist _).length_le
    _ = text.length - k := by simp
    _ < text.length := Nat.sub_lt (Nat.lt_of_le_of_lt (Nat.zero_le _) hlt) hk

theorem splitRest_length_lt {text : List Char} {maxLen : Nat}
    (hm : 0 < maxLen) (hlen : maxLen < text.length) :
    ((text.drop (splitChunkAt text maxLen)).dropWhile (· == '\n')).length < text.length := by
  unfold splitChunkAt
  split
  · rename_i i h
    obtain ⟨hi, hget⟩ := rfindNewlineAux_some h
    rcases Nat.eq_zero_or_pos i with hi0 | hipos
    · subst hi0
      cases text with
      | nil => simp at hget
      | cons c t =>
        simp only [List.get?] at hget
        injection hget with hc
        subst hc
        simp only [List.drop_zero, List.dropWhile_cons]
        simp only [beq_self_eq_true, if_true]
        exact Nat.lt_succ_of_le ((List.dropWhile_sublist _).length_le)
    · exact dropDropWhile_length_lt hipos (Nat.lt_trans hi hlen)
  · exact dropDropWhile_length_lt hm hlen

theorem splitMessageLoop_spec {maxLen : Nat} (hm : 0 < maxLen) :
    ∀ (fuel : Nat) (text : List Char), text.length ≤ fuel →
      (∀ c ∈ splitMessageLoop fuel maxLen text, c.length ≤ maxLen) ∧
      (∃ seps : List (List Char),
        seps.length = (splitMessageLoop fuel maxLen text).length ∧
        (∀ s ∈ seps, ∀ ch ∈ s, ch = '\n') ∧
        (List.zipWith (· ++ ·) (splitMessageLoop fuel maxLen text) seps).flatten = text) ∧
      (text ≠ [] → splitMessageLoop fuel maxLen text ≠ []) := by
  intro fuel
  induction fuel with
  | zero =>
    intro text hle
    have h0 : text = [] := List.length_eq_zero.mp (Nat.le_zero.mp hle)
    subst h0
    exact ⟨by simp [splitMessageLoop], ⟨[], by simp [splitMessageLoop], by simp,
      by simp [splitMessageLoop]⟩, by simp⟩
  | succ fuel ih =>
    intro text hle
    by_cases h0 : text = []
    · subst h0
      exact ⟨by simp [splitMessageLoop], ⟨[], by simp [splitMessageLoop], by simp,
        by simp [splitMessageLoop]⟩, by simp⟩
    · by_cases h1 : text.length ≤ maxLen
      · have hL : splitMessageLoop (fuel + 1) maxLen text = [text] := by
          rw [splitMessageLoop, if_neg h0, if_pos h1]
        refine ⟨?_, ⟨[[]], ?_, ?_, ?_⟩, ?_⟩
        · intro c hc
          rw [hL] at hc
          simp only [List.mem_singleton] at hc
          subst hc
          exact h1
        · simp [hL]
        · simp
        · simp [hL]
        · rw [hL]; simp
      · push_neg at h1
        have hlt : ((text.drop (splitChunkAt text maxLen)).dropWhile (· == '\n')).length
            < text.length := splitRest_length_lt hm h1
        have hle' : ((text.drop (splitChunkAt text maxLen)).dropWhile (· == '\n')).length
            ≤ fuel := Nat.lt_succ_iff.mp (Nat.lt_of_lt_of_le hlt hle)
        obtain ⟨ihA, ⟨seps', hs1, hs2, hs3⟩, _⟩ :=
          ih ((text.drop (splitChunkAt text maxLen)).dropWhile (· == '\n')) hle'
        have hL : splitMessageLoop (fuel + 1) maxLen text
            = text.take (splitChunkAt text maxLen)
              :: splitMessageLoop fuel maxLen
                ((text.drop (splitChunkAt text maxLen)).dropWhile (· == '\n')) := by
          rw [splitMessageLoop, if_neg h0, if_neg (by omega)]
        refine ⟨?_, ⟨((text.drop (splitChunkAt text maxLen)).takeWhile (· == '\n')) :: seps',
          ?_, ?_, ?_⟩, ?_⟩
        · intro c hc
          rw [hL] at hc
          rcases List.mem_cons.mp hc with hc | hc
          · subst hc
            exact Nat.le_trans (List.length_take_le _ _) (splitChunkAt_le text maxLen)
          · exact ihA c hc
        · simp [hL, hs1]
        · intro s hs
          rcases List.mem_cons.mp hs with hs | hs
          · subst hs
            intro ch hch
            have := List.mem_takeWhile_imp hch
            exact eq_of_beq this
          · exact hs2 s hs
        · rw [hL]
          simp only [List.zipWith_cons_cons, List.flatten_cons]
          rw [hs3, List.append_assoc, List.takeWhile_append_dropWhile,
            List.take_append_drop]
        · rw [hL]; simp

/-- Claim C3: for every text and positive max length, `split_message` returns
chunks each of length at most the max; concatenating the chunks in order,
interleaved with the runs of newline characters consumed at the split points,
reproduces the original text; and a text already within the limit comes back
as the single chunk equal to the input. -/
theorem split_message_spec (text : List Char) (maxLen : Nat) (hm : 0 < maxLen) :
    (∀ c ∈ split_message text maxLen, c.length ≤ maxLen) ∧
    (∃ seps : List (List Char),
      seps.length = (split_message text maxLen).length ∧
      (∀ s ∈ seps, ∀ ch ∈ s, ch = '\n') ∧
      (List.zipWith (· ++ ·) (split_message text maxLen) seps).flatten = text) ∧
    (text.length ≤ maxLen → split_message text maxLen = [text]) := by
  unfold split_message
  by_cases h : text.length ≤ maxLen
  · rw [if_pos h]
    refine ⟨?_, ⟨[[]], by simp, by simp, by simp⟩, fun _ => rfl⟩
    intro c hc
    simp only [List.mem_singleton] at hc
    subst hc
    exact h
  · rw [if_neg h]
    obtain ⟨hA, hB, _⟩ := splitMessageLoop_spec hm text.length text (Nat.le_refl _)
    exact ⟨hA, hB, fun hc => absurd hc h⟩

/-- Claim C3 witness: the specification evaluated on the concrete input
`"ab\ncdef"` with limit 4 (which splits at the newline). -/
theorem split_message_spec_witness :
    (0 : Nat) < 4 ∧
    ((∀ c ∈ split_message "ab\ncdef".data 4, c.length ≤ 4) ∧
     (∃ seps : List (List Char),
       seps.length = (split_message "ab\ncdef".data 4).length ∧
       (∀ s ∈ seps, ∀ ch ∈ s, ch = '\n') ∧
       (List.zipWith (· ++ ·) (split_message "ab\ncdef".data 4) seps).flatten
         = "ab\ncdef".data) ∧
     ("ab\ncdef".data.length ≤ 4 → split_message "ab\ncdef".data 4 = ["ab\ncdef".data])) :=
  ⟨by decide, split_message_spec ("ab\ncdef".data) 4 (by decide)⟩

/-- Claim C10: for every text and positive max length, `split_message` returns
at least one chunk; on the empty input it returns exactly one chunk, the
empty string. -/
theorem split_message_never_empty (text : List Char) (maxLen : Nat) (hm : 0 < maxLen) :
    split_message text maxLen ≠ [] ∧ (text = [] → split_message text maxLen = [[]]) := by
  constructor
  · unfold split_message
    by_cases h : text.length ≤ maxLen
    · rw [if_pos h]; simp
    · rw [if_neg h]
      have h0 : text ≠ [] := by
        intro he
        subst he
        exact h (Nat.zero_le _)
      exact (splitMessageLoop_spec hm text.length text (Nat.le_refl _)).2.2 h0
  · intro he
    subst he
    simp [split_message]

/-- Claim C10 witness: the theorem evaluated at the empty input with limit 5. -/
theorem split_message_never_empty_witness :
    (0 : Nat) < 5 ∧
    (split_message [] 5 ≠ [] ∧ (([] : List Char) = [] → split_message [] 5 = [[]])) :=
  ⟨by decide, split_message_never_empty [] 5 (by decide)⟩

/- ------------------------------------------------------------------ -/
/- Message routing (`parse_profile_prefix`)                            -/
/- ------------------------------------------------------------------ -/

/-- Python default whitespace, as used by `str.strip()` and
`str.split(None)` (the ASCII whitespace characters). -/
def isPySpace (c : Char) : Bool :=
  c == ' ' || c == '\t' || c == '\n' || c == '\r' || c == '\x0b' || c == '\x0c'

/-- Python `str.strip()` on character lists. -/
def pyStripList (s : List Char) : List Char :=
  ((s.dropWhile isPySpace).reverse.dropWhile isPySpace).reverse

/-- Python `str.split(None, 1)`: skip leading whitespace, take the first
whitespace-delimited token, skip the separating whitespace, and keep the
remainder verbatim; at most two parts come back. -/
def splitNoneOnce (s : List Char) : List (List Char) :=
  let s1 := s.dropWhile isPySpace
  if s1.isEmpty then []
  else
    let tok := s1.takeWhile (fun c => !(isPySpace c))
    let rest := (s1.dropWhile (fun c => !(isPySpace c))).dropWhile isPySpace
    if rest.isEmpty then [tok] else [tok, rest]

/-- Embeds `parse_profile_prefix` from bridge.py: the `/p <profile> <rest>` form is
tried first; otherwise the first registered profile whose `<profile>:` is a
prefix of the text wins; otherwise the text is returned unchanged. -/
def parse_profile_prefix (text : List Char) (profiles : List (List Char)) :
    Option (List Char) × List Char :=
  let slashForm :=
    if ("/p ".data).isPrefixOf text then
      match splitNoneOnce (pyStripList (text.drop 3)) with
      | [p0, rest] => if profiles.contains p0 then some (p0, rest) else none
      | [p0] => if profiles.contains p0 then some (p0, ([] : List Char)) else none
      | _ => none
    else none
  match slashForm with
  | some pr => (some pr.1, pr.2)
  | none =>
    match profiles.find? (fun p => (p ++ [':']).isPrefixOf text) with
    | some p => (some p, pyStripList (text.drop (p.length + 1)))
    | none => (none, text)

/-- Whether the `/p <profile> <rest>` branch of the router matches a
registered profile (both of its arms test membership of the first token). -/
def slashFormMatches (text : List Char) (profiles : List (List Char)) : Bool :=
  ("/p ".data).isPrefixOf text &&
    (match splitNoneOnce (pyStripList (text.drop 3)) with
     | p0 :: _ => profiles.contains p0
     | [] => false)

theorem parse_profile_prefix_of_no_slash {text : List Char}
    {profiles : List (List Char)}
    (h : slashFormMatches text profiles = false) :
    parse_profile_prefix text profiles =
      (match profiles.find? (fun p => (p ++ [':']).isPrefixOf text) with
       | some p => (some p, pyStripList (text.drop (p.length + 1)))
       | none => (none, text)) := by
  unfold parse_profile_prefix
  unfold slashFormMatches at h
  by_cases hp : ("/p ".data).isPrefixOf text = true
  · rw [hp, Bool.true_and] at h
    simp only [hp, if_true]
    rcases hsp : splitNoneOnce (pyStripList (text.drop 3)) with _ | ⟨p0, _ | ⟨p1, _ | ⟨p2, tl⟩⟩⟩
    · simp [hsp]
    · rw [hsp] at h
      simp at h
      simp [hsp, h]
    · rw [hsp] at h
      simp at h
      simp [hsp, h]
    · simp [hsp]
  · have hp' : ("/p ".data).isPrefixOf text = false := by
      cases hq : ("/p ".data).isPrefixOf text
      · rfl
      · exact absurd hq hp
    simp [hp']

/-- Claim C4: with registry `["default", "work"]` the router maps
`"/p work hello"` to `("work", "hello")`, `"work: ping"` to
`("work", "ping")`, `"hello"` to no explicit profile with the text unchanged,
and `"/p unknown hi"` to no explicit profile with the text unchanged; in
general, when neither explicit form matches a registered profile the original
text comes back unchanged with no explicit profile, and `<profile>:` matching
is first-match-in-registry-order. -/
theorem parse_profile_prefix_spec :
    ( parse_profile_prefix "/p work hello".data ["default".data, "work".data]
       = (some "work".data, "hello".data)) ∧
    ( parse_profile_prefix "work: ping".data ["default".data, "work".data]
       = (some "work".data, "ping".data)) ∧
    ( parse_profile_prefix "hello".data ["default".data, "work".data]
       = (none, "hello".data)) ∧
    ( parse_profile_prefix "/p unknown hi".data ["default".data, "work".data]
       = (none, "/p unknown hi".data)) ∧
    (∀ (text : List Char) (profiles : List (List Char)),
      slashFormMatches text profiles = false →
      profiles.find? (fun q => (q ++ [':']).isPrefixOf text) = none →
      parse_profile_prefix text profiles = (none, text)) ∧
    (∀ (text : List Char) (profiles : List (List Char)) (p : List Char),
      slashFormMatches text profiles = false →
      profiles.find? (fun q => (q ++ [':']).isPrefixOf text) = some p →
      parse_profile_prefix text profiles
        = (some p, pyStripList (text.drop (p.length + 1)))) := by
  refine ⟨by decide, by decide, by decide, by decide, ?_, ?_⟩
  · intro text profiles h hf
    rw [parse_profile_prefix_of_no_slash h, hf]
  · intro text profiles p h hf
    rw [parse_profile_prefix_of_no_slash h, hf]

/-- Claim C4 witness: the general no-match components applied at concrete
inputs (`"abc"` matches nothing; `"work: ping"` matches the registered
profile `work` first in registry order). -/
theorem parse_profile_prefix_spec_witness :
    (slashFormMatches "abc".data ["default".data] = false ∧
     ["default".data].find? (fun q => (q ++ [':']).isPrefixOf "abc".data) = none ∧
     parse_profile_prefix "abc".data ["default".data] = (none, "abc".data)) ∧
    (slashFormMatches "work: ping".data ["work".data] = false ∧
     ["work".data].find? (fun q => (q ++ [':']).isPrefixOf "work: ping".data)
       = some "work".data ∧
     parse_profile_prefix "work: ping".data ["work".data]
       = (some "work".data, pyStripList ("work: ping".data.drop 5))) :=
  ⟨⟨by decide, by decide,
    parse_profile_prefix_spec.2.2.2.2.1 "abc".data ["default".data]
      (by decide) (by decide)⟩,
   ⟨by decide, by decide,
    parse_profile_prefix_spec.2.2.2.2.2 "work: ping".data ["work".data]
      "work".data (by decide) (by decide)⟩⟩

/- ------------------------------------------------------------------ -/
/- CLI gateway and session lifecycle                                   -/
/- ------------------------------------------------------------------ -/

/-- Embeds `conductor_session_title` from bridge.py. -/
def conductor_session_title (profile : String) : String :=
  "conductor-" ++ profile

/-- Embeds `CONDUCTOR_DIR` (`~/.agent-deck/conductor`); `Path.home()` depends on the
host environment, the tilde stands for it.  No claim inspects this value; it
only occurs inside the `add` invocation's argument list. -/
def conductorDir : String := "~/.agent-deck/conductor"

/-- Lookup in a JSON object association list: `kvs.get k dflt`. -/
def jGetD (kvs : List (String × Json)) (k : String) (dflt : Json) : Json :=
  ((kvs.find? (fun kv => kv.1 == k)).map Prod.snd).getD dflt

/-- Embeds `get_session_status` applied to the completed `session show --json`
call: non-zero exit or invalid JSON give `"error"`; a JSON object gives its
`status` value (default `"error"`).  `none` models the uncaught
`AttributeError` Python raises when the JSON is valid but not an object
(only `JSONDecodeError` and `KeyError` are caught there). -/
def get_session_status (res : CompletedProcess) : Option Json :=
  if res.returncode ≠ 0 then some (.str "error")
  else
    match res.stdoutJson with
    | none => some (.str "error")
    | some (.obj kvs) => some (jGetD kvs "status" (.str "error"))
    | some _ => none

/-- Python `x == "error"` for a JSON value `x` (true only on that string). -/
def isErrorStr : Json → Bool
  | .str s => s == "error"
  | _ => false

/-- The `session show <title> --json` query issued by `get_session_status`. -/
def showCall (profile : String) : CliCall :=
  ⟨["session", "show", conductor_session_title profile, "--json"], some profile, 30⟩

/-- The `session start <title>` invocation of `ensure_conductor_running`. -/
def startCall (profile : String) : CliCall :=
  ⟨["session", "start", conductor_session_title profile], some profile, 60⟩

/-- The `add <path> -t <title> -c claude -g infra` invocation. -/
def addCall (profile : String) : CliCall :=
  ⟨["add", conductorDir ++ "/" ++ profile, "-t", conductor_session_title profile,
    "-c", "claude", "-g", "infra"], some profile, 60⟩

/-- Embeds `ensure_conductor_running` from bridge.py.  `env` answers the i-th CLI
invocation, counting from `k`; the result pairs the returned boolean
(`none` = an uncaught exception inside a status query) with the ordered
trace of issued CLI invocations.  The `time.sleep(5)` settle wait issues no
CLI call, so it is not an event. -/
def ensure_conductor_running (profile : String) (env : Nat → CompletedProcess)
    (k : Nat) : Option Bool × List CliCall :=
  match get_session_status (env k) with
  | none => (none, [showCall profile])
  | some status =>
    if isErrorStr status then
      let r1 := env (k + 1)
      if r1.returncode ≠ 0 then
        let r2 := env (k + 2)
        if r2.returncode ≠ 0 then
          (some false, [showCall profile, startCall profile, addCall profile])
        else
          -- the second `session start` (answered by `env (k+3)`) has its
          -- result deliberately unchecked, matching the source; then the
          -- settle wait and the re-query
          match get_session_status (env (k + 4)) with
          | none => (none, [showCall profile, startCall profile, addCall profile,
              startCall profile, showCall profile])
          | some s2 => (some (!(isErrorStr s2)),
              [showCall profile, startCall profile, addCall profile,
               startCall profile, showCall profile])
      else
        match get_session_status (env (k + 2)) with
        | none => (none, [showCall profile, startCall profile, showCall profile])
        | some s2 => (some (!(isErrorStr s2)),
            [showCall profile, startCall profile, showCall profile])
    else (some true, [showCall profile])

/-- Claim C5: when the initially queried status of the conductor session is
not `"error"`, `ensure_conductor_running` returns success after exactly one
CLI invocation, the `session show` status query — no start, create, or other
mutating invocation appears in the trace. -/
theorem ensure_conductor_running_fast_path (profile : String)
    (env : Nat → CompletedProcess) (s : Json)
    (hs : get_session_status (env 0) = some s)
    (hne : isErrorStr s = false) :
    ensure_conductor_running profile env 0 = (some true, [showCall profile]) := by
  unfold ensure_conductor_running
  rw [hs]
  simp [hne]

/-- Environment in which every status query reports a running session. -/
def envRunning : Nat → CompletedProcess :=
  fun _ => ⟨0, "", "", some (.obj [("status", .str "running")])⟩

/-- Claim C5 witness: the fast path evaluated against a mock session whose
status is `"running"`. -/
theorem ensure_conductor_running_fast_path_witness :
    get_session_status (envRunning 0) = some (.str "running") ∧
    isErrorStr (.str "running") = false ∧
    ensure_conductor_running "default" envRunning 0
      = (some true, [showCall "default"]) :=
  ⟨rfl, rfl,
   ensure_conductor_running_fast_path "default" envRunning (.str "running") rfl rfl⟩

/-- Claim C9: when the initial status is `"error"`, the first start fails and
the create succeeds, the function issues a second start whose exit code it
never checks, settles, re-queries, and returns exactly (re-queried status is
not `"error"`); the oracle's answer to the second start (index 3) is
unconstrained, so the result does not depend on it. -/
theorem ensure_conductor_running_create_path (profile : String)
    (env : Nat → CompletedProcess) (s2 : Json)
    (h0 : get_session_status (env 0) = some (.str "error"))
    (h1 : (env 1).returncode ≠ 0)
    (h2 : (env 2).returncode = 0)
    (h4 : get_session_status (env 4) = some s2) :
    ensure_conductor_running profile env 0
      = (some (!(isErrorStr s2)),
         [showCall profile, startCall profile, addCall profile,
          startCall profile, showCall profile]) := by
  unfold ensure_conductor_running
  rw [h0]
  simp only [isErrorStr, beq_self_eq_true, if_true]
  rw [if_pos h1, if_neg (fun hc => hc h2), h4]

/-- Environment realizing the create path with a failing second start:
show fails (status `error`), start fails, add succeeds, the second start
fails too (exit 1), and the re-query reports `running`. -/
def envCreatePath : Nat → CompletedProcess := fun n =>
  match n with
  | 0 => ⟨1, "", "no such session", none⟩
  | 1 => ⟨1, "", "cannot start", none⟩
  | 2 => ⟨0, "", "", none⟩
  | 3 => ⟨1, "", "start failed again", none⟩
  | _ => ⟨0, "", "", some (.obj [("status", .str "running")])⟩

/-- Claim C9 witness: on `envCreatePath` the second start fails (exit 1) yet
the result is success, because only the re-queried status is consulted. -/
theorem ensure_conductor_running_create_path_witness :
    get_session_status (envCreatePath 0) = some (.str "error") ∧
    (envCreatePath 1).returncode ≠ 0 ∧
    (envCreatePath 2).returncode = 0 ∧
    (envCreatePath 3).returncode = 1 ∧
    get_session_status (envCreatePath 4) = some (.str "running") ∧
    ensure_conductor_running "ops" envCreatePath 0
      = (some true,
         [showCall "ops", startCall "ops", addCall "ops",
          startCall "ops", showCall "ops"]) :=
  ⟨rfl, by decide, rfl, rfl, rfl,
   ensure_conductor_running_create_path "ops" envCreatePath (.str "running")
     rfl (by decide) rfl rfl⟩

/- ------------------------------------------------------------------ -/
/- Status summary and aggregation                                      -/
/- ------------------------------------------------------------------ -/

/-- The literal all-zero summary dict from `get_status_summary`. -/
def zeroSummary : Json :=
  .obj [("waiting", .num 0), ("running", .num 0), ("idle", .num 0),
        ("error", .num 0), ("total", .num 0)]

/-- Embeds `get_status_summary` applied to the completed `status --json` call:
non-zero exit or a `JSONDecodeError` give the all-zero summary; any
successfully parsed JSON value is returned as-is (the shape is not
checked). -/
def get_status_summary (res : CompletedProcess) : Json :=
  if res.returncode ≠ 0 then zeroSummary
  else
    match res.stdoutJson with
    | some j => j
    | none => zeroSummary

/-- The five counter keys of a StatusSummary, in the order the totals dict
declares them. -/
def summaryKeys : List String := ["waiting", "running", "idle", "error", "total"]

/-- Spec-side definition (from the spec's StatusSummary data model): a value
parses as the expected summary JSON when it is an object whose five counters
are numbers (missing counters default to 0).  Used only to state which
outputs "fail to parse as the expected JSON". -/
def specSummaryShaped (j : Json) : Bool :=
  match j with
  | .obj kvs =>
    summaryKeys.all (fun k =>
      match (kvs.find? (fun kv => kv.1 == k)).map Prod.snd with
      | some (.num _) => true
      | none => true
      | some _ => false)
  | _ => false

/-- Claim C7 counterexample: a zero-exit call whose stdout `"[]"` is valid
JSON but fails to parse as the expected summary shape is returned as the
JSON array unchanged — not as the all-zero summary the claim requires. -/
theorem get_status_summary_shape_counterexample :
    specSummaryShaped (Json.arr []) = false ∧
    get_status_summary ⟨0, "[]", "", some (.arr [])⟩ = Json.arr [] ∧
    get_status_summary ⟨0, "[]", "", some (.arr [])⟩ ≠ zeroSummary :=
  ⟨rfl, rfl, fun h => nomatch h⟩

/-- Claim C7 (amended): `get_status_summary` never raises; on a non-zero
exit (which includes the synthetic results run_cli builds for timeout and
tool-not-found) or on stdout that is not valid JSON it returns the all-zero
summary; stdout that parses as JSON is returned as parsed, whatever its
shape. -/
theorem get_status_summary_failure_zero :
    (∀ res : CompletedProcess,
      res.returncode ≠ 0 ∨ res.stdoutJson = none →
      get_status_summary res = zeroSummary) ∧
    (∀ (res : CompletedProcess) (j : Json),
      res.returncode = 0 → res.stdoutJson = some j →
      get_status_summary res = j) := by
  constructor
  · intro res h
    unfold get_status_summary
    rcases h with h | h
    · rw [if_pos h]
    · by_cases hr : res.returncode ≠ 0
      · rw [if_pos hr]
      · rw [if_neg hr, h]
  · intro res j h0 hj
    unfold get_status_summary
    rw [if_neg (fun hc => hc h0), hj]

/-- Claim C7 witness: the amended theorem evaluated on a timeout-style
failure (exit 1) and on a parsed well-formed summary. -/
theorem get_status_summary_failure_zero_witness :
    ((⟨1, "", "timeout", none⟩ : CompletedProcess).returncode ≠ 0 ∨
      (⟨1, "", "timeout", none⟩ : CompletedProcess).stdoutJson = none) ∧
    get_status_summary ⟨1, "", "timeout", none⟩ = zeroSummary ∧
    get_status_summary ⟨0, "", "", some (.obj [("waiting", .num 3)])⟩
      = .obj [("waiting", .num 3)] :=
  ⟨Or.inl (by decide),
   get_status_summary_failure_zero.1 ⟨1, "", "timeout", none⟩ (Or.inl (by decide)),
   get_status_summary_failure_zero.2 ⟨0, "", "", some (.obj [("waiting", .num 3)])⟩
     (.obj [("waiting", .num 3)]) rfl rfl⟩

/-- Python addition coercion for `totals[key] += summary.get(key, 0)`:
integers add as themselves, booleans add as 0/1, anything else raises
`TypeError` (modelled as `none`). -/
def pyAsAddend : Json → Option Int
  | .num n => some n
  | .bool b => some (if b then 1 else 0)
  | _ => none

/-- Embeds `summary.get(key, 0)` followed by the addition in the totals loop:
`none` models the exception (`AttributeError` when the summary is not a
dict, `TypeError` when the value cannot be added to an int). -/
def getCounter (j : Json) (k : String) : Option Int :=
  match j with
  | .obj kvs => pyAsAddend (jGetD kvs k (.num 0))
  | _ => none

/-- The `totals` dict of `get_status_summary_all`. -/
structure Totals where
  waiting : Int
  running : Int
  idle : Int
  error : Int
  total : Int

/-- The `for key in totals` pass over the five counters for one summary. -/
def addSummary (t : Totals) (j : Json) : Option Totals :=
  match getCounter j "waiting", getCounter j "running", getCounter j "idle",
      getCounter j "error", getCounter j "total" with
  | some w, some r, some i, some e, some tt =>
    some ⟨t.waiting + w, t.running + r, t.idle + i, t.error + e, t.total + tt⟩
  | _, _, _, _, _ => none

/-- The profile loop of `get_status_summary_all`; the Python `per_profile`
dict is modelled as the insertion-ordered association list. -/
def aggLoop (env : String → CompletedProcess) :
    List String → Totals → List (String × Json) →
    Option (Totals × List (String × Json))
  | [], t, pp => some (t, pp)
  | p :: ps, t, pp =>
    let s := get_status_summary (env p)
    match addSummary t s with
    | none => none
    | some t2 => aggLoop env ps t2 (pp ++ [(p, s)])

/-- Embeds `get_status_summary_all` from bridge.py: aggregate status across all
profiles.  `env p` answers the `status --json` call for profile `p`; `none`
models an uncaught exception escaping the whole aggregation. -/
def get_status_summary_all (profiles : List String)
    (env : String → CompletedProcess) :
    Option (Totals × List (String × Json)) :=
  aggLoop env profiles ⟨0, 0, 0, 0, 0⟩ []

/-- Field-wise sum of one counter over the per-profile summaries. -/
def sumCounter (profiles : List String) (env : String → CompletedProcess)
    (k : String) : Int :=
  (profiles.map (fun p => (getCounter (get_status_summary (env p)) k).getD 0)).sum

theorem aggLoop_spec (env : String → CompletedProcess) :
    ∀ (profiles : List String) (t : Totals) (pp : List (String × Json)),
      (∀ p ∈ profiles, ∀ k ∈ summaryKeys,
        (getCounter (get_status_summary (env p)) k).isSome) →
      aggLoop env profiles t pp
        = some (⟨t.waiting + sumCounter profiles env "waiting",
                 t.running + sumCounter profiles env "running",
                 t.idle + sumCounter profiles env "idle",
                 t.error + sumCounter profiles env "error",
                 t.total + sumCounter profiles env "total"⟩,
                pp ++ profiles.map (fun p => (p, get_status_summary (env p)))) := by
  intro profiles
  induction profiles with
  | nil =>
    intro t pp _
    simp [aggLoop, sumCounter]
  | cons p ps ih =>
    intro t pp h
    have hp := h p (List.mem_cons_self _ _)
    obtain ⟨w, hw⟩ := Option.isSome_iff_exists.mp
      (hp "waiting" (by simp [summaryKeys]))
    obtain ⟨r, hr⟩ := Option.isSome_iff_exists.mp
      (hp "running" (by simp [summaryKeys]))
    obtain ⟨i, hi⟩ := Option.isSome_iff_exists.mp
      (hp "idle" (by simp [summaryKeys]))
    obtain ⟨e, he⟩ := Option.isSome_iff_exists.mp
      (hp "error" (by simp [summaryKeys]))
    obtain ⟨tt, htt⟩ := Option.isSome_iff_exists.mp
      (hp "total" (by simp [summaryKeys]))
    have hadd : addSummary t (get_status_summary (env p))
        = some ⟨t.waiting + w, t.running + r, t.idle + i, t.error + e,
                t.total + tt⟩ := by
      unfold addSummary
      rw [hw, hr, hi, he, htt]
    show (match addSummary t (get_status_summary (env p)) with
      | none => none
      | some t2 => aggLoop env ps t2 (pp ++ [(p, get_status_summary (env p))])) = _
    rw [hadd]
    show aggLoop env ps
        ⟨t.waiting + w, t.running + r, t.idle + i, t.error + e, t.total + tt⟩
        (pp ++ [(p, get_status_summary (env p))]) = _
    rw [ih _ _ (fun q hq k hk => h q (List.mem_cons_of_mem _ hq) k hk)]
    simp [sumCounter, hw, hr, hi, he, htt, add_assoc]

/-- Concrete environment for the three-profile aggregation scenario of the
spec: summaries `{running:1}`, `{waiting:2}`, `{error:1}`. -/
def envThree (p : String) : CompletedProcess :=
  if p == "a" then ⟨0, "", "", some (.obj [("running", .num 1)])⟩
  else if p == "b" then ⟨0, "", "", some (.obj [("waiting", .num 2)])⟩
  else ⟨0, "", "", some (.obj [("error", .num 1)])⟩

/-- Claim C8: whenever every per-profile summary supports the five counter
lookups, the aggregate's totals are the field-wise sums of the counters
(missing keys counting as 0) and `per_profile` keeps each fetched summary
unmodified in profile order; in particular the three-profile scenario
`{running:1}`, `{waiting:2}`, `{error:1}` totals to
`{waiting:2, running:1, idle:0, error:1, total:0}`. -/
theorem get_status_summary_all_sums :
    (∀ (profiles : List String) (env : String → CompletedProcess),
      (∀ p ∈ profiles, ∀ k ∈ summaryKeys,
        (getCounter (get_status_summary (env p)) k).isSome) →
      get_status_summary_all profiles env
        = some (⟨sumCounter profiles env "waiting",
                 sumCounter profiles env "running",
                 sumCounter profiles env "idle",
                 sumCounter profiles env "error",
                 sumCounter profiles env "total"⟩,
                profiles.map (fun p => (p, get_status_summary (env p))))) ∧
    get_status_summary_all ["a", "b", "c"] envThree
      = some (⟨2, 1, 0, 1, 0⟩,
              [("a", .obj [("running", .num 1)]),
               ("b", .obj [("waiting", .num 2)]),
               ("c", .obj [("error", .num 1)])]) := by
  constructor
  · intro profiles env h
    unfold get_status_summary_all
    rw [aggLoop_spec env profiles ⟨0, 0, 0, 0, 0⟩ [] h]
    simp
  · rfl

/-- Claim C8 witness: the general component applied to the single profile
`"a"` of the concrete environment. -/
theorem get_status_summary_all_sums_witness :
    (∀ p ∈ ["a"], ∀ k ∈ summaryKeys,
      (getCounter (get_status_summary (envThree p)) k).isSome) ∧
    get_status_summary_all ["a"] envThree
      = some (⟨sumCounter ["a"] envThree "waiting",
               sumCounter ["a"] envThree "running",
               sumCounter ["a"] envThree "idle",
               sumCounter ["a"] envThree "error",
               sumCounter ["a"] envThree "total"⟩,
              [("a", get_status_summary (envThree "a"))]) :=
  ⟨by decide, get_status_summary_all_sums.1 ["a"] envThree (by decide)⟩

/- ------------------------------------------------------------------ -/
/- Heartbeat tick                                                      -/
/- ------------------------------------------------------------------ -/

/-- The `status --json` query issued by `get_status_summary`. -/
def statusCall (profile : String) : CliCall :=
  ⟨["status", "--json"], some profile, 30⟩

/-- The `list --json` query issued by `get_sessions_list`. -/
def listCall (profile : String) : CliCall :=
  ⟨["list", "--json"], some profile, 30⟩

/-- The `session send <title> <msg> --wait --timeout 300s -q` invocation of
the heartbeat tick (`RESPONSE_TIMEOUT = 300`, subprocess timeout
`max(300+30, 60) = 330`). -/
def sendCall (profile : String) (msg : String) : CliCall :=
  ⟨["session", "send", conductor_session_title profile, msg,
    "--wait", "--timeout", "300s", "-q"], some profile, 330⟩

/-- Embeds `get_sessions_list` applied to the completed `list --json` call:
failure or invalid JSON give `[]`; a dict yields its `sessions` value
(default `[]`); a bare array is returned as-is; any other JSON gives `[]`. -/
def get_sessions_list (res : CompletedProcess) : Json :=
  if res.returncode ≠ 0 then .arr []
  else
    match res.stdoutJson with
    | none => .arr []
    | some (.obj kvs) => jGetD kvs "sessions" (.arr [])
    | some (.arr xs) => .arr xs
    | some _ => .arr []

/-- Python `x == s` for a JSON value `x` and a string `s` (only a JSON
string can compare equal). -/
def jsonEqStr : Json → String → Bool
  | .str t, s => t == s
  | _, _ => false

/-- Python `str()` rendering of the scalar JSON values interpolated into the
heartbeat message; container rendering is abbreviated (no claim inspects a
message embedding a container). -/
def jsonFmt : Json → String
  | .str s => s
  | .num n => toString n
  | .bool b => if b then "True" else "False"
  | .null => "None"
  | .arr _ => "[...]"
  | .obj _ => "\x7b...\x7d"

/-- The detail-collection loop of the heartbeat tick body: partitions the
session records into waiting/error detail lines (rendered as
`<title> (project: <path>)`), skipping the conductor's own title; `none`
models the exception raised on a record that is not a dict, which the
per-profile boundary catches. -/
def detailsGo (sessionTitle : String) : List Json → Option (List String × List String)
  | [] => some ([], [])
  | s :: rest =>
    match s with
    | .obj kvs =>
      let tJ := jGetD kvs "title" (.str "untitled")
      let stJ := jGetD kvs "status" (.str "")
      let pJ := jGetD kvs "path" (.str "")
      match detailsGo sessionTitle rest with
      | none => none
      | some (wd, ed) =>
        if jsonEqStr tJ sessionTitle then some (wd, ed)
        else if jsonEqStr stJ "waiting" then
          some ((jsonFmt tJ ++ " (project: " ++ jsonFmt pJ ++ ")") :: wd, ed)
        else if jsonEqStr stJ "error" then
          some (wd, (jsonFmt tJ ++ " (project: " ++ jsonFmt pJ ++ ")") :: ed)
        else some (wd, ed)
    | _ => none

/-- Iterating `for s in sessions` over the sessions value: requires a JSON
array (iterating any other inhabited value ends in an exception inside the
loop body; the empty-string/empty-dict zero-iteration corner is elided). -/
def buildDetails (sessions : Json) (sessionTitle : String) :
    Option (List String × List String) :=
  match sessions with
  | .arr xs => detailsGo sessionTitle xs
  | _ => none

/-- The composed heartbeat diagnostic message. -/
def heartbeatMsg (profile : String) (w r i e : Json)
    (wd ed : List String) : String :=
  let head := "[HEARTBEAT] [" ++ profile ++ "] Status: " ++ jsonFmt w
    ++ " waiting, " ++ jsonFmt r ++ " running, " ++ jsonFmt i ++ " idle, "
    ++ jsonFmt e ++ " error."
  let parts := [head]
    ++ (if wd.isEmpty then [] else
        ["Waiting sessions: " ++ String.intercalate ", " wd ++ "."])
    ++ (if ed.isEmpty then [] else
        ["Error sessions: " ++ String.intercalate ", " ed ++ "."])
    ++ ["Check if any need auto-response or user attention."]
  String.intercalate " " parts

/-- The four `summary.get(...)` reads at the top of the heartbeat tick body,
in source order (waiting, running, idle, error); `none` models the
`AttributeError` on a non-dict summary. -/
def tickCounters (summary : Json) : Option (Json × Json × Json × Json) :=
  match summary with
  | .obj kvs => some (jGetD kvs "waiting" (.num 0), jGetD kvs "running" (.num 0),
      jGetD kvs "idle" (.num 0), jGetD kvs "error" (.num 0))
  | _ => none

/-- Python `x == 0` for a JSON value (`0` and `False` compare equal to 0). -/
def pyEqZero : Json → Bool
  | .num n => n == 0
  | .bool b => !b
  | _ => false

/-- Python `str.strip()` on `String`. -/
def pyStrip (s : String) : String := ⟨pyStripList s.data⟩

/-- Python substring test `needle in haystack`, on character lists. -/
def strContains (needle : List Char) : List Char → Bool
  | [] => needle.isEmpty
  | c :: rest => needle.isPrefixOf (c :: rest) || strContains needle rest

/-- Outcome of one per-profile heartbeat tick body: the CLI invocations
issued, and the out-of-band alert attempts handed to the transport
(`bot.send_message`) as pairs (recipient id, text).  An exception inside the
body is caught by the per-profile boundary; it truncates the body, and the
calls already issued remain in the trace.  A delivery failure of an alert is
itself caught and only logged, so the attempt list does not depend on
delivery outcomes. -/
structure TickResult where
  calls : List CliCall
  alerts : List (Int × String)

/-- One per-profile iteration of the `heartbeat_loop` body (the code inside
the per-profile try).  `env` answers this tick's CLI invocations in order;
`userId` is the configured authorized identity. -/
def heartbeat_tick (profile : String) (profiles : List String) (userId : Int)
    (env : Nat → CompletedProcess) : TickResult :=
  let summary := get_status_summary (env 0)
  match tickCounters summary with
  | none => ⟨[statusCall profile], []⟩
  | some (w, r, i, e) =>
    if pyEqZero w && pyEqZero e then ⟨[statusCall profile], []⟩
    else
      let sessions := get_sessions_list (env 1)
      match buildDetails sessions (conductor_session_title profile) with
      | none => ⟨[statusCall profile, listCall profile], []⟩
      | some (wd, ed) =>
        let msg := heartbeatMsg profile w r i e wd ed
        let ens := ensure_conductor_running profile env 2
        let baseCalls := statusCall profile :: listCall profile :: ens.2
        match ens.1 with
        | none => ⟨baseCalls, []⟩
        | some false => ⟨baseCalls, []⟩
        | some true =>
          let res := env (2 + ens.2.length)
          let calls := baseCalls ++ [sendCall profile msg]
          if res.returncode ≠ 0 then ⟨calls, []⟩
          else
            let response := pyStrip res.stdout
            if strContains "NEED:".data response.data then
              let tag := if profiles.length > 1 then "[" ++ profile ++ "] " else ""
              ⟨calls, [(userId, tag ++ "Conductor alert:\n" ++ response)]⟩
            else ⟨calls, []⟩

/-- A full heartbeat cycle: the per-profile tick bodies run sequentially,
each in its own failure domain (`env2 p` answers profile p's calls). -/
def heartbeat_cycle (profiles : List String) (userId : Int)
    (env2 : String → Nat → CompletedProcess) : List TickResult :=
  profiles.map (fun p => heartbeat_tick p profiles userId (env2 p))

/-- Claim C6: a profile whose fetched summary reads `waiting == 0` and
`error == 0` is skipped right after the status query: the tick issues no
further CLI call (in particular no session-list fetch and no send) and no
alert. -/
theorem heartbeat_tick_silent_skip (profile : String) (profiles : List String)
    (userId : Int) (env : Nat → CompletedProcess) (w r i e : Json)
    (hc : tickCounters (get_status_summary (env 0)) = some (w, r, i, e))
    (hw : pyEqZero w = true) (he : pyEqZero e = true) :
    heartbeat_tick profile profiles userId env = ⟨[statusCall profile], []⟩ := by
  unfold heartbeat_tick
  simp only [hc]
  simp [hw, he]

/-- Environment whose status summary reports nothing waiting or erroring. -/
def envQuiet : Nat → CompletedProcess := fun _ =>
  ⟨0, "", "", some (.obj [("waiting", .num 0), ("running", .num 2),
    ("idle", .num 0), ("error", .num 0), ("total", .num 2)])⟩

/-- Claim C6 witness: the silent skip evaluated on a concrete quiet
summary. -/
theorem heartbeat_tick_silent_skip_witness :
    tickCounters (get_status_summary (envQuiet 0))
      = some (.num 0, .num 2, .num 0, .num 0) ∧
    pyEqZero (.num 0) = true ∧
    heartbeat_tick "work" ["default", "work"] 7 envQuiet
      = ⟨[statusCall "work"], []⟩ :=
  ⟨rfl, rfl,
   heartbeat_tick_silent_skip "work" ["default", "work"] 7 envQuiet
     (.num 0) (.num 2) (.num 0) (.num 0) rfl rfl rfl⟩

theorem string_data_append (s t : String) : (s ++ t).data = s.data ++ t.data := rfl

theorem isPrefixOf_append_self : ∀ (n t : List Char), n.isPrefixOf (n ++ t) = true
  | [], _ => by simp [List.isPrefixOf]
  | c :: n', t => by simp [List.isPrefixOf, isPrefixOf_append_self n' t]

theorem strContains_of_isPrefixOf {n hay : List Char}
    (h : n.isPrefixOf hay = true) : strContains n hay = true := by
  cases hay with
  | nil =>
    cases n with
    | nil => rfl
    | cons c t => simp [List.isPrefixOf] at h
  | cons c rest => simp [strContains, h]

theorem strContains_append_left {n b : List Char} (a : List Char)
    (h : strContains n b = true) : strContains n (a ++ b) = true := by
  induction a with
  | nil => simpa using h
  | cons c a' ih => simp [strContains, ih]

theorem tag_strContains (profile mid rest : String) :
    strContains ("[" ++ profile ++ "]").data
      ((("[" ++ profile ++ "] ") ++ mid) ++ rest).data = true := by
  have hdata : ((("[" ++ profile ++ "] ") ++ mid) ++ rest).data
      = ("[" ++ profile ++ "]").data ++ (' ' :: (mid.data ++ rest.data)) := by
    show ((("[".data ++ profile.data) ++ (']' :: [' '])) ++ mid.data) ++ rest.data
        = (("[".data ++ profile.data) ++ [']']) ++ (' ' :: (mid.data ++ rest.data))
    simp [List.append_assoc]
  rw [hdata]
  exact strContains_of_isPrefixOf (isPrefixOf_append_self _ _)

/-- Environment for the end-to-end heartbeat scenario: the summary reports
one waiting session, the session list holds `build-1` (waiting, path
`/repo`), the conductor session is already running, and the send replies
with text containing the `NEED:` marker. -/
def envNeed : Nat → CompletedProcess := fun n =>
  match n with
  | 0 => ⟨0, "", "", some (.obj [("waiting", .num 1), ("running", .num 0),
      ("idle", .num 0), ("error", .num 0), ("total", .num 2)])⟩
  | 1 => ⟨0, "", "", some (.obj [("sessions", .arr
      [.obj [("title", .str "build-1"), ("status", .str "waiting"),
             ("path", .str "/repo"), ("tool", .str "claude")]])])⟩
  | 2 => ⟨0, "", "", some (.obj [("status", .str "running")])⟩
  | _ => ⟨0, "NEED: review PR", "", none⟩

/-- Claim C2 counterexample: running the scenario with `ops` as the only
configured profile delivers exactly one alert to the authorized identity,
whose body carries the full reply (hence `NEED:`) — but the body does not
contain the profile tag `[ops]`, because the tag is prefixed only when more
than one profile is configured. -/
theorem heartbeat_alert_single_profile_counterexample :
    (heartbeat_tick "ops" ["ops"] 42 envNeed).alerts
      = [(42, "Conductor alert:\nNEED: review PR")] ∧
    strContains "NEED:".data "Conductor alert:\nNEED: review PR".data = true ∧
    strContains "[ops]".data "Conductor alert:\nNEED: review PR".data = false :=
  ⟨rfl, by decide, by decide⟩

/-- Claim C2 (amended): on a heartbeat tick whose counters are read, whose
skip check fails, whose details build, whose `ensure_conductor_running`
succeeds and whose send succeeds with a stripped reply containing `NEED:`,
exactly one out-of-band alert attempt goes to the authorized identity; its
body embeds the full stripped reply (hence contains `NEED:`) and carries the
bracketed profile tag exactly when more than one profile is configured (with
a single profile the body is untagged); the attempt list is independent of
delivery outcomes (a delivery failure is only logged) and the cycle still
runs one tick per profile. -/
theorem heartbeat_alert_need_marker (profile : String) (profiles : List String)
    (userId : Int) (env : Nat → CompletedProcess) (w r i e : Json)
    (wd ed : List String) (etr : List CliCall)
    (hc : tickCounters (get_status_summary (env 0)) = some (w, r, i, e))
    (hskip : (pyEqZero w && pyEqZero e) = false)
    (hd : buildDetails (get_sessions_list (env 1)) (conductor_session_title profile)
        = some (wd, ed))
    (hens : ensure_conductor_running profile env 2 = (some true, etr))
    (hsend : (env (2 + etr.length)).returncode = 0)
    (hneed : strContains "NEED:".data (pyStrip (env (2 + etr.length)).stdout).data
        = true) :
    (heartbeat_tick profile profiles userId env).alerts
      = [(userId,
          (if profiles.length > 1 then "[" ++ profile ++ "] " else "")
            ++ "Conductor alert:\n" ++ pyStrip (env (2 + etr.length)).stdout)] ∧
    strContains "NEED:".data
      ((if profiles.length > 1 then "[" ++ profile ++ "] " else "")
        ++ "Conductor alert:\n" ++ pyStrip (env (2 + etr.length)).stdout).data
      = true ∧
    (profiles.length > 1 →
      strContains ("[" ++ profile ++ "]").data
        ((if profiles.length > 1 then "[" ++ profile ++ "] " else "")
          ++ "Conductor alert:\n" ++ pyStrip (env (2 + etr.length)).stdout).data
        = true) ∧
    (∀ (ps : List String) (env2 : String → Nat → CompletedProcess),
      (heartbeat_cycle ps userId env2).length = ps.length) := by
  refine ⟨?_, ?_, ?_, ?_⟩
  · unfold heartbeat_tick
    simp only [hc, hskip, Bool.false_eq_true, if_false, hd, hens]
    simp [hsend, hneed]
  · rw [string_data_append]
    exact strContains_append_left _ hneed
  · intro hlen
    rw [if_pos hlen]
    exact tag_strContains profile "Conductor alert:\n" (pyStrip (env (2 + etr.length)).stdout)
  · intro ps env2
    simp [heartbeat_cycle]

/-- Claim C2 witness: the amended theorem evaluated on the concrete scenario
with two configured profiles, where the single alert body carries the
`[ops]` tag and the `NEED:` marker. -/
theorem heartbeat_alert_need_marker_witness :
    ensure_conductor_running "ops" envNeed 2 = (some true, [showCall "ops"]) ∧
    (heartbeat_tick "ops" ["ops", "dev"] 42 envNeed).alerts
      = [(42,
          (if (["ops", "dev"] : List String).length > 1 then "[" ++ "ops" ++ "] "
           else "")
            ++ "Conductor alert:\n"
            ++ pyStrip (envNeed (2 + ([showCall "ops"] : List CliCall).length)).stdout)] ∧
    strContains ("[" ++ "ops" ++ "]").data
      ((if (["ops", "dev"] : List String).length > 1 then "[" ++ "ops" ++ "] "
        else "")
        ++ "Conductor alert:\n"
        ++ pyStrip (envNeed (2 + ([showCall "ops"] : List CliCall).length)).stdout).data
      = true :=
  have h := heartbeat_alert_need_marker "ops" ["ops", "dev"] 42 envNeed
    (.num 1) (.num 0) (.num 0) (.num 0) ["build-1 (project: /repo)"] []
    [showCall "ops"] rfl rfl rfl rfl rfl (by decide)
  ⟨rfl, h.1, h.2.2.1 (by decide)⟩
